import Mathlib

/-!
Verification of the send-side video stream orchestrator
(`webrtc::internal::VideoSendStreamImpl` in `video/video_send_stream.cc`).

The C++ code is shallowly embedded: each method that the properties talk
about becomes a pure Lean function over an explicit state record.  Machine
integers are modelled as `Nat`; the two unsigned subtractions that can wrap
in the source are modelled with an explicit `% 2 ^ w`.
-/

namespace WebRTC

/-- Constant `kSendSideSeqNumSetMaxSize` from `video_send_stream.cc`:
capacity of the feedback sequence-number window. -/
def kSendSideSeqNumSetMaxSize : ℕ := 5500

/-- Constant `kPathMTU` from `video_send_stream.cc`: the assumed ethernet MTU. -/
def kPathMTU : ℕ := 1500

/-- Constant `CheckEncoderActivityTask::kEncoderTimeOutMs`. -/
def kEncoderTimeOutMs : ℕ := 2000

/-- Constant `kMinSendSidePacketHistorySize`. -/
def kMinSendSidePacketHistorySize : ℕ := 600

/-- Wrap-around subtraction of `w`-bit unsigned integers, for a minuend `a`
that is already a valid `w`-bit value (`a < 2 ^ w`). This is C++ unsigned
subtraction `a - b` where `b` is first reduced to `w` bits. -/
def usub (w a b : ℕ) : ℕ := (2 ^ w + a - b % 2 ^ w) % 2 ^ w

/-- Helper `CalculatePacketRate` (`video_send_stream.cc:232`):
ceiling division of the bitrate by the packet size in bits, in `size_t`
arithmetic. -/
def CalculatePacketRate (bitrateBps packetSizeBytes : ℕ) : ℕ :=
  (bitrateBps + 8 * packetSizeBytes - 1) / (8 * packetSizeBytes)

/-- Helper `CalculateOverheadRateBps` (`video_send_stream.cc:224`):
`min(uint32_t(8 * overhead_bytes_per_packet * packets_per_second),
max_overhead_bps)`. The product is computed in `size_t` and cast to
`uint32_t`, hence the `% 2 ^ 32`. -/
def CalculateOverheadRateBps (packetsPerSecond overheadBytesPerPacket
    maxOverheadBps : ℕ) : ℕ :=
  min ((8 * overheadBytesPerPacket * packetsPerSecond) % 2 ^ 32) maxOverheadBps

/-- State of the bitrate feedback loop of `VideoSendStreamImpl`: the fields
of the class read or written by `OnBitrateUpdated`. -/
structure BitrateState where
  sendSideBweWithOverhead : Bool
  maxPacketSize : ℕ
  transportOverheadBytesPerPacket : ℕ
  overheadBytesPerPacket : ℕ
  encoderMaxBitrateBps : ℕ
  encoderTargetRateBps : ℕ
  lossMaskVector : List Bool
deriving DecidableEq, Repr

/-- Signature of the external FEC controller's `UpdateFecRates`
(payload bitrate, send frame rate, fraction loss, loss mask, rtt) ↦
encoder target rate. The controller is an external collaborator, so it is a
parameter of the embedding. -/
def FecRateUpdater : Type :=
  ℕ → ℕ → ℕ → List Bool → ℤ → ℕ

/-- Step 1 of `VideoSendStreamImpl::OnBitrateUpdated`
(`video_send_stream.cc:1222`): subtract the transport overhead estimate
from the estimated bitrate when the overhead field trial is enabled. -/
def payloadBitrateBps (s : BitrateState) (bitrateBps : ℕ) : ℕ :=
  if s.sendSideBweWithOverhead then
    usub 32 bitrateBps
      (CalculateOverheadRateBps
        (CalculatePacketRate bitrateBps
          (s.maxPacketSize + s.transportOverheadBytesPerPacket))
        (s.overheadBytesPerPacket + s.transportOverheadBytesPerPacket)
        bitrateBps)
  else bitrateBps

/-- Step 2 of `VideoSendStreamImpl::OnBitrateUpdated`
(`video_send_stream.cc:1234`): the encoder target rate produced by the FEC
controller; it already has the controller's protection estimate removed. -/
def rawEncoderTargetRateBps (fec : FecRateUpdater) (s : BitrateState)
    (bitrateBps sendFrameRate fractionLoss : ℕ) (rtt : ℤ) : ℕ :=
  fec (payloadBitrateBps s bitrateBps) sendFrameRate fractionLoss
    s.lossMaskVector rtt

/-- Step 3 of `VideoSendStreamImpl::OnBitrateUpdated`
(`video_send_stream.cc:1239`): the overhead correction for the encoder
target, capped by the difference between total and target bitrate. -/
def encoderOverheadRateBps (s : BitrateState) (bitrateBps targetBps : ℕ) : ℕ :=
  if s.sendSideBweWithOverhead then
    CalculateOverheadRateBps
      (CalculatePacketRate targetBps
        (usub 64 (s.maxPacketSize + s.transportOverheadBytesPerPacket)
          s.overheadBytesPerPacket))
      (s.overheadBytesPerPacket + s.transportOverheadBytesPerPacket)
      (usub 32 bitrateBps targetBps)
  else 0

/-- Step 4 of `VideoSendStreamImpl::OnBitrateUpdated`
(`video_send_stream.cc:1253`): the protection bitrate returned to the
bitrate allocator, in `uint32_t` arithmetic. -/
def protectionBitrateBps (s : BitrateState) (bitrateBps targetBps : ℕ) : ℕ :=
  usub 32 bitrateBps (targetBps + encoderOverheadRateBps s bitrateBps targetBps)

/-- `VideoSendStreamImpl::OnBitrateUpdated` (`video_send_stream.cc:1212`).
Returns the updated state and the protection bitrate handed back to the
caller. The new `encoderTargetRateBps` (clamped to the configured maximum,
`video_send_stream.cc:1256`) is the value pushed to the encoder and to
statistics; the loss mask is consumed. `probingIntervalMs` is accepted and
ignored exactly as in the source. -/
def OnBitrateUpdated (fec : FecRateUpdater) (s : BitrateState)
    (bitrateBps fractionLoss : ℕ) (rtt probingIntervalMs : ℤ)
    (sendFrameRate : ℕ) : BitrateState × ℕ :=
  let target := rawEncoderTargetRateBps fec s bitrateBps sendFrameRate
    fractionLoss rtt
  let protection := protectionBitrateBps s bitrateBps target
  ({ s with
      encoderTargetRateBps := min s.encoderMaxBitrateBps target
      lossMaskVector := [] },
    protection)

lemma usub_eq_sub {w a b : ℕ} (hb : b ≤ a) (ha : a < 2 ^ w) :
    usub w a b = a - b := by
  have hbw : b % 2 ^ w = b := Nat.mod_eq_of_lt (lt_of_le_of_lt hb ha)
  unfold usub
  rw [hbw]
  have h1 : 2 ^ w + a - b = 2 ^ w + (a - b) := by omega
  rw [h1, Nat.add_mod_left]
  exact Nat.mod_eq_of_lt (by omega)

lemma CalculateOverheadRateBps_le (packetsPerSecond overheadBytesPerPacket
    maxOverheadBps : ℕ) :
    CalculateOverheadRateBps packetsPerSecond overheadBytesPerPacket
      maxOverheadBps ≤ maxOverheadBps :=
  Nat.min_le_right _ _

lemma payloadBitrateBps_le (s : BitrateState) (bitrateBps : ℕ)
    (hb : bitrateBps < 2 ^ 32) :
    payloadBitrateBps s bitrateBps ≤ bitrateBps := by
  unfold payloadBitrateBps
  split
  · rw [usub_eq_sub (CalculateOverheadRateBps_le _ _ _) hb]
    exact Nat.sub_le _ _
  · exact le_refl _

lemma encoderOverheadRateBps_le (s : BitrateState) (bitrateBps targetBps : ℕ)
    (ht : targetBps ≤ bitrateBps) (hb : bitrateBps < 2 ^ 32) :
    encoderOverheadRateBps s bitrateBps targetBps ≤ bitrateBps - targetBps := by
  unfold encoderOverheadRateBps
  split
  · rw [show usub 32 bitrateBps targetBps = bitrateBps - targetBps from
      usub_eq_sub ht hb]
    exact CalculateOverheadRateBps_le _ _ _
  · exact Nat.zero_le _

/-- C1: after `OnBitrateUpdated` on a started stream, the rate budget is
exact: encoder payload target + protection (the returned value) + encoder
overhead correction equals the total bitrate, provided the FEC controller
honours its contract of returning a target no larger than the payload
bitrate it was given; and the encoder rate actually pushed to the encoder
is clamped to the configured maximum bitrate. -/
theorem onBitrateUpdated_rate_budget (fec : FecRateUpdater)
    (hfec : ∀ p fr fl m r, fec p fr fl m r ≤ p)
    (s : BitrateState) (bitrateBps fractionLoss : ℕ)
    (rtt probingIntervalMs : ℤ) (sendFrameRate : ℕ)
    (hb : bitrateBps < 2 ^ 32) :
    rawEncoderTargetRateBps fec s bitrateBps sendFrameRate fractionLoss rtt
      + protectionBitrateBps s bitrateBps
          (rawEncoderTargetRateBps fec s bitrateBps sendFrameRate fractionLoss
            rtt)
      + encoderOverheadRateBps s bitrateBps
          (rawEncoderTargetRateBps fec s bitrateBps sendFrameRate fractionLoss
            rtt)
      = bitrateBps
    ∧ (OnBitrateUpdated fec s bitrateBps fractionLoss rtt probingIntervalMs
        sendFrameRate).1.encoderTargetRateBps ≤ s.encoderMaxBitrateBps := by
  set t := rawEncoderTargetRateBps fec s bitrateBps sendFrameRate fractionLoss
    rtt with ht_def
  have ht : t ≤ bitrateBps := by
    calc t ≤ payloadBitrateBps s bitrateBps := hfec _ _ _ _ _
    _ ≤ bitrateBps := payloadBitrateBps_le s bitrateBps hb
  have hov : encoderOverheadRateBps s bitrateBps t ≤ bitrateBps - t :=
    encoderOverheadRateBps_le s bitrateBps t ht hb
  constructor
  · have hsum : t + encoderOverheadRateBps s bitrateBps t ≤ bitrateBps := by
      omega
    unfold protectionBitrateBps
    rw [usub_eq_sub hsum hb]
    omega
  · unfold OnBitrateUpdated
    exact Nat.min_le_left _ _

/-- Witness for C1: the budget identity and the clamp at one concrete
input (overhead accounting enabled, identity FEC controller). -/
theorem onBitrateUpdated_rate_budget_witness :
    rawEncoderTargetRateBps (fun p _ _ _ _ => p)
        ⟨true, 1400, 20, 30, 500000, 0, []⟩ 1000000 30 0 50
      + protectionBitrateBps ⟨true, 1400, 20, 30, 500000, 0, []⟩ 1000000
          (rawEncoderTargetRateBps (fun p _ _ _ _ => p)
            ⟨true, 1400, 20, 30, 500000, 0, []⟩ 1000000 30 0 50)
      + encoderOverheadRateBps ⟨true, 1400, 20, 30, 500000, 0, []⟩ 1000000
          (rawEncoderTargetRateBps (fun p _ _ _ _ => p)
            ⟨true, 1400, 20, 30, 500000, 0, []⟩ 1000000 30 0 50)
      = 1000000
    ∧ (OnBitrateUpdated (fun p _ _ _ _ => p)
        ⟨true, 1400, 20, 30, 500000, 0, []⟩ 1000000 0 50 1000
        30).1.encoderTargetRateBps ≤ 500000 :=
  onBitrateUpdated_rate_budget (fun p _ _ _ _ => p)
    (fun p _ _ _ _ => Nat.le_refl p)
    ⟨true, 1400, 20, 30, 500000, 0, []⟩ 1000000 0 50 1000 30 (by decide)

/-- C4: the concrete scenario `OnBitrateUpdated(1_000_000, 0, 50, 1000)`
with overhead accounting disabled and the FEC controller returning
`800_000`: the protection bitrate returned to the caller is exactly
`1_000_000 - (800_000 + 0) = 200_000`. -/
theorem onBitrateUpdated_protection_scenario :
    (OnBitrateUpdated (fun _ _ _ _ _ => 800000)
      ⟨false, 1400, 0, 0, 2000000, 0, []⟩ 1000000 0 50 1000 30).2
      = 200000 := by decide

/-- Modelled from the spec: a feedback report carries a packet sequence
number and an arrival time; an arrival time equal to the sentinel
`kNotReceived` indicates non-arrival. The `PacketFeedback` type itself
lives outside this repository. -/
structure PacketFeedback where
  sequenceNumber : ℕ
  arrivalTimeMs : ℤ
deriving DecidableEq, Repr

/-- Modelled from the spec: the sentinel arrival time of a report that
indicates non-arrival. -/
def PacketFeedback.kNotReceived : ℤ := -1

/-- Loop body of `VideoSendStreamImpl::OnPacketFeedbackVector`
(`video_send_stream.cc:1366`). The source declares
`auto it = feedback_packet_seq_num_set_.find(...) != ...end()`, which makes
`it` the *boolean* result of the comparison, not an iterator; the branch is
therefore taken exactly when the sequence number is in the window, but
`feedback_packet_seq_num_set_.erase(it)` resolves to the key-overload of
`erase` with `uint16_t(true) == 1`, i.e. it erases the sequence number `1`,
not the matched one. The embedding reproduces this faithfully. -/
def feedbackStep (st : Finset ℕ × List Bool) (packet : PacketFeedback) :
    Finset ℕ × List Bool :=
  if packet.sequenceNumber ∈ st.1 then
    (st.1.erase 1,
      st.2 ++ [packet.arrivalTimeMs == PacketFeedback.kNotReceived])
  else st

/-- `VideoSendStreamImpl::OnPacketFeedbackVector`
(`video_send_stream.cc:1354`), state already on the worker queue: folds the
report vector over the feedback window and the pending loss mask. -/
def OnPacketFeedbackVector (window : Finset ℕ) (lossMask : List Bool)
    (reports : List PacketFeedback) : Finset ℕ × List Bool :=
  reports.foldl feedbackStep (window, lossMask)

/-- C2, evaluated at the failing input: a single report for sequence
number 5 (present in the window, marked not received) appends `true` to
the loss mask but does NOT remove 5 from the window — the code erases the
key 1 (the boolean comparison result converted to `uint16_t`) instead of
the matched sequence number, so the window still contains 5 afterwards,
contradicting the claim that the matched report is removed. -/
theorem onPacketFeedbackVector_failing_input :
    OnPacketFeedbackVector {5} [] [⟨5, -1⟩] = ({5}, [true])
    ∧ 5 ∈ (OnPacketFeedbackVector {5} [] [⟨5, -1⟩]).1 := by decide

/-- `VideoSendStreamImpl::OnPacketAdded` (`video_send_stream.cc:1333`),
state already on the worker queue: if the SSRC is one of the stream's
media SSRCs, insert the sequence number into the feedback window and clear
the window wholesale when its size exceeds `kSendSideSeqNumSetMaxSize`. -/
def OnPacketAdded (ssrcs : List ℕ) (window : Finset ℕ) (ssrc seqNum : ℕ) :
    Finset ℕ :=
  if ssrc ∈ ssrcs then
    let w := insert seqNum window
    if kSendSideSeqNumSetMaxSize < w.card then ∅ else w
  else window

/-- Repeated application of `OnPacketAdded` to a list of
(SSRC, sequence number) notifications. -/
def processPackets (ssrcs : List ℕ) (window : Finset ℕ)
    (packets : List (ℕ × ℕ)) : Finset ℕ :=
  packets.foldl (fun w p => OnPacketAdded ssrcs w p.1 p.2) window

lemma processPackets_fills (ssrcs : List ℕ) (ssrc : ℕ) (hssrc : ssrc ∈ ssrcs) :
    ∀ (L : List ℕ) (w : Finset ℕ), L.Nodup → (∀ x ∈ L, x ∉ w) →
      w.card + L.length ≤ kSendSideSeqNumSetMaxSize →
      processPackets ssrcs w (L.map fun q => (ssrc, q)) = w ∪ L.toFinset
      ∧ (processPackets ssrcs w (L.map fun q => (ssrc, q))).card
          = w.card + L.length := by
  intro L
  induction L with
  | nil =>
    intro w _ _ _
    simp [processPackets]
  | cons q L ih =>
    intro w hnd hfresh hcard
    have hq : q ∉ w := hfresh q (by simp)
    have hqL : q ∉ L := (List.nodup_cons.mp hnd).1
    have hcardq : (insert q w).card = w.card + 1 :=
      Finset.card_insert_of_not_mem hq
    have hstep : OnPacketAdded ssrcs w ssrc q = insert q w := by
      unfold OnPacketAdded
      rw [if_pos hssrc]
      have hlen : (q :: L).length = L.length + 1 := rfl
      rw [if_neg (by rw [hcardq]; omega)]
    have hrw : processPackets ssrcs w ((q :: L).map fun x => (ssrc, x))
        = processPackets ssrcs (insert q w) (L.map fun x => (ssrc, x)) := by
      simp only [List.map_cons, processPackets, List.foldl_cons]
      rw [show OnPacketAdded ssrcs w (ssrc, q).1 (ssrc, q).2 = insert q w from
        hstep]
    have hfresh2 : ∀ x ∈ L, x ∉ insert q w := by
      intro x hx
      rw [Finset.mem_insert]
      push_neg
      exact ⟨fun hxq => hqL (hxq ▸ hx), hfresh x (List.mem_cons_of_mem _ hx)⟩
    have hcard2 : (insert q w).card + L.length ≤ kSendSideSeqNumSetMaxSize := by
      rw [hcardq]
      have : (q :: L).length = L.length + 1 := rfl
      omega
    obtain ⟨ih1, ih2⟩ := ih (insert q w) (List.nodup_cons.mp hnd).2 hfresh2
      hcard2
    refine ⟨?_, ?_⟩
    · rw [hrw, ih1, List.toFinset_cons, Finset.union_insert,
        Finset.insert_union]
    · rw [hrw, ih2, hcardq]
      have : (q :: L).length = L.length + 1 := rfl
      omega

/-- C6: `OnPacketAdded` leaves the window unchanged for a non-media SSRC;
for a media SSRC it inserts the sequence number and clears the window to
empty whenever the size exceeds the capacity 5500 after insertion; in
particular inserting capacity + 1 distinct sequence numbers into an empty
window leaves the window empty. -/
theorem onPacketAdded_window_policy (ssrcs : List ℕ) (window : Finset ℕ)
    (ssrc seqNum : ℕ) :
    (ssrc ∉ ssrcs → OnPacketAdded ssrcs window ssrc seqNum = window)
    ∧ (ssrc ∈ ssrcs →
        ((insert seqNum window).card ≤ kSendSideSeqNumSetMaxSize →
          OnPacketAdded ssrcs window ssrc seqNum = insert seqNum window)
        ∧ (kSendSideSeqNumSetMaxSize < (insert seqNum window).card →
          OnPacketAdded ssrcs window ssrc seqNum = ∅))
    ∧ (∀ L : List ℕ, ssrc ∈ ssrcs → L.Nodup →
        L.length = kSendSideSeqNumSetMaxSize + 1 →
        processPackets ssrcs ∅ (L.map fun q => (ssrc, q)) = ∅) := by
  refine ⟨?_, ?_, ?_⟩
  · intro h
    unfold OnPacketAdded
    rw [if_neg h]
  · intro h
    constructor
    · intro hle
      unfold OnPacketAdded
      rw [if_pos h, if_neg (by omega)]
    · intro hgt
      unfold OnPacketAdded
      rw [if_pos h, if_pos hgt]
  · intro L hssrc hnd hlen
    set L₁ := L.take kSendSideSeqNumSetMaxSize with hL₁
    set L₂ := L.drop kSendSideSeqNumSetMaxSize with hL₂
    have happ : L₁ ++ L₂ = L := List.take_append_drop _ _
    have hnd' : (L₁ ++ L₂).Nodup := happ ▸ hnd
    obtain ⟨hnd₁, hnd₂, hdisj⟩ := List.nodup_append.mp hnd'
    have hlen₁ : L₁.length = kSendSideSeqNumSetMaxSize := by
      rw [hL₁, List.length_take, hlen]
      omega
    have hlen₂ : L₂.length = 1 := by
      rw [hL₂, List.length_drop, hlen]
      omega
    obtain ⟨a, ha⟩ := List.length_eq_one.mp hlen₂
    have hsplit : processPackets ssrcs ∅ (L.map fun q => (ssrc, q))
        = processPackets ssrcs
            (processPackets ssrcs ∅ (L₁.map fun q => (ssrc, q)))
            (L₂.map fun q => (ssrc, q)) := by
      rw [← happ, List.map_append]
      simp [processPackets, List.foldl_append]
    obtain ⟨hW, hWcard⟩ := processPackets_fills ssrcs ssrc hssrc L₁ ∅ hnd₁
      (by simp) (by rw [hlen₁]; simp)
    have haW : a ∉ processPackets ssrcs ∅ (L₁.map fun q => (ssrc, q)) := by
      rw [hW, Finset.empty_union, List.mem_toFinset]
      exact fun haL₁ => (hdisj haL₁) (by rw [ha]; simp)
    rw [hsplit, ha]
    have hone : processPackets ssrcs
        (processPackets ssrcs ∅ (L₁.map fun q => (ssrc, q)))
        ([a].map fun q => (ssrc, q))
        = OnPacketAdded ssrcs
            (processPackets ssrcs ∅ (L₁.map fun q => (ssrc, q))) ssrc a := rfl
    have hcardW : (processPackets ssrcs ∅ (L₁.map fun q => (ssrc, q))).card
        = kSendSideSeqNumSetMaxSize := by
      rw [hWcard, hlen₁]
      simp
    have hgt : kSendSideSeqNumSetMaxSize
        < (insert a (processPackets ssrcs ∅ (L₁.map fun q => (ssrc, q)))).card
        := by
      rw [Finset.card_insert_of_not_mem haW, hcardW]
      omega
    rw [hone]
    unfold OnPacketAdded
    rw [if_pos hssrc, if_pos hgt]

/-- Witness for C6: a media-SSRC stream whose window receives 5501
distinct sequence numbers ends with an empty window. -/
theorem onPacketAdded_window_policy_witness :
    processPackets [1001] ∅ ((List.range 5501).map fun q => (1001, q)) = ∅ :=
  (onPacketAdded_window_policy [1001] ∅ 1001 0).2.2 (List.range 5501)
    (by simp) (List.nodup_range _)
    (by simp [List.length_range, kSendSideSeqNumSetMaxSize])

/-- FlexFEC part of the stream configuration
(`config_->rtp.flexfec` fields consulted by `MaybeCreateFlexfecSender`). -/
structure FlexfecConfig where
  payloadType : ℤ
  ssrc : ℕ
  protectedMediaSsrcs : List ℕ
deriving DecidableEq, Repr

/-- Whether `MaybeCreateFlexfecSender` (`video_send_stream.cc:113`) creates
a FlexFEC sender: it requires a non-negative payload type, a non-zero
FlexFEC SSRC, and exactly one protected media SSRC; any other shape
disables FlexFEC with a warning. -/
def flexfecSenderCreated (f : FlexfecConfig) : Bool :=
  if f.payloadType < 0 then false
  else if f.ssrc = 0 then false
  else if f.protectedMediaSsrcs.isEmpty then false
  else if 1 < f.protectedMediaSsrcs.length then false
  else true

/-- Helper `PayloadTypeSupportsSkippingFecPackets`
(`video_send_stream.cc:195`). The underlying `PayloadStringToCodecType` is
outside this repository; modelled from the spec: only the VP8 and VP9
codec names qualify. -/
def PayloadTypeSupportsSkippingFecPackets (payloadName : String) : Bool :=
  payloadName = "VP8" || payloadName = "VP9"

/-- Resulting protection policy of
`VideoSendStreamImpl::ConfigureProtection`: the RED/ULPFEC payload types
applied to every RTP module (negative means disabled), the NACK decision,
and the `(fec_enabled, nack_enabled)` pair passed to the FEC controller's
`SetProtectionMethod`. -/
structure ProtectionPolicy where
  flexfec : Bool
  redPayloadType : ℤ
  ulpfecPayloadType : ℤ
  nackEnabled : Bool
  fecControllerFecEnabled : Bool
  fecControllerNackEnabled : Bool
deriving DecidableEq, Repr

/-- `VideoSendStreamImpl::ConfigureProtection`
(`video_send_stream.cc:1041`), with the rules applied in source order:
the disable-ULPFEC field trial, then FlexFEC priority over RED and ULPFEC,
then the NACK + no-picture-ID rule, then the ULPFEC-without-RED rule. -/
def ConfigureProtection (disableUlpfecExperiment flexfecEnabled : Bool)
    (nackRtpHistoryMs redPayloadType ulpfecPayloadType : ℤ)
    (payloadName : String) : ProtectionPolicy :=
  let nackEnabled : Bool := decide (0 < nackRtpHistoryMs)
  let ulpfec1 : ℤ := if disableUlpfecExperiment then -1 else ulpfecPayloadType
  let red1 : ℤ :=
    if flexfecEnabled then
      (if 0 ≤ redPayloadType then -1 else redPayloadType)
    else redPayloadType
  let ulpfec2 : ℤ :=
    if flexfecEnabled then (if 0 ≤ ulpfec1 then -1 else ulpfec1) else ulpfec1
  let ulpfec3 : ℤ :=
    if nackEnabled ∧ 0 ≤ ulpfec2
        ∧ ¬ PayloadTypeSupportsSkippingFecPackets payloadName then -1
    else ulpfec2
  let ulpfec4 : ℤ := if 0 ≤ ulpfec3 ∧ red1 < 0 then -1 else ulpfec3
  { flexfec := flexfecEnabled
    redPayloadType := red1
    ulpfecPayloadType := ulpfec4
    nackEnabled := nackEnabled
    fecControllerFecEnabled := flexfecEnabled || decide (0 ≤ ulpfec4)
    fecControllerNackEnabled := nackEnabled }

/-- Per-module RED/ULPFEC configuration applied by `ConfigureProtection`
(`video_send_stream.cc:1115`): every module gets
`SetUlpfecConfig(red_payload_type, ulpfec_payload_type)`. -/
def moduleUlpfecConfigs (numModules : ℕ) (p : ProtectionPolicy) :
    List (ℤ × ℤ) :=
  List.replicate numModules (p.redPayloadType, p.ulpfecPayloadType)

/-- C3: the protection rules, in source order. FlexFEC enabled disables
both RED and ULPFEC; NACK with a configured ULPFEC and a payload name
other than VP8/VP9 disables ULPFEC; a configured ULPFEC without RED is
disabled; and for VP8/VP9 with NACK a configured ULPFEC (with RED, no
FlexFEC and no disable experiment) survives unchanged. -/
theorem configureProtection_rules (disableUlpfecExperiment flexfecEnabled :
    Bool) (nackRtpHistoryMs redPayloadType ulpfecPayloadType : ℤ)
    (payloadName : String) :
    (flexfecEnabled = true →
      (ConfigureProtection disableUlpfecExperiment flexfecEnabled
        nackRtpHistoryMs redPayloadType ulpfecPayloadType
        payloadName).redPayloadType < 0
      ∧ (ConfigureProtection disableUlpfecExperiment flexfecEnabled
          nackRtpHistoryMs redPayloadType ulpfecPayloadType
          payloadName).ulpfecPayloadType < 0)
    ∧ (0 < nackRtpHistoryMs → 0 ≤ ulpfecPayloadType →
        PayloadTypeSupportsSkippingFecPackets payloadName = false →
        (ConfigureProtection disableUlpfecExperiment flexfecEnabled
          nackRtpHistoryMs redPayloadType ulpfecPayloadType
          payloadName).ulpfecPayloadType < 0)
    ∧ (0 ≤ ulpfecPayloadType → redPayloadType < 0 →
        (ConfigureProtection disableUlpfecExperiment flexfecEnabled
          nackRtpHistoryMs redPayloadType ulpfecPayloadType
          payloadName).ulpfecPayloadType < 0)
    ∧ (flexfecEnabled = false → disableUlpfecExperiment = false →
        0 < nackRtpHistoryMs →
        PayloadTypeSupportsSkippingFecPackets payloadName = true →
        0 ≤ ulpfecPayloadType → 0 ≤ redPayloadType →
        (ConfigureProtection disableUlpfecExperiment flexfecEnabled
          nackRtpHistoryMs redPayloadType ulpfecPayloadType
          payloadName).ulpfecPayloadType = ulpfecPayloadType
        ∧ (ConfigureProtection disableUlpfecExperiment flexfecEnabled
            nackRtpHistoryMs redPayloadType ulpfecPayloadType
            payloadName).redPayloadType = redPayloadType) := by
  unfold ConfigureProtection
  refine ⟨?_, ?_, ?_, ?_⟩
  · intro hf
    subst hf
    simp only [if_true]
    constructor
    · split_ifs <;> omega
    · split_ifs <;> omega
  · intro hnack hulp hskip
    simp only [hskip]
    split_ifs <;> simp_all <;> omega
  · intro hulp hred
    split_ifs <;> simp_all <;> omega
  · intro hf hexp hnack hskip hulp hred
    subst hf
    subst hexp
    simp only [hskip, if_false, Bool.false_eq_true]
    constructor
    · split_ifs <;> simp_all <;> omega
    · trivial

/-- Witness for C3: all four rules observed at concrete configurations. -/
theorem configureProtection_rules_witness :
    ((ConfigureProtection false true 1000 101 100 "H264").redPayloadType < 0
      ∧ (ConfigureProtection false true 1000 101 100
          "H264").ulpfecPayloadType < 0)
    ∧ (ConfigureProtection false false 1000 101 100
        "H264").ulpfecPayloadType < 0
    ∧ (ConfigureProtection false false 1000 (-1) 100
        "VP8").ulpfecPayloadType < 0
    ∧ ((ConfigureProtection false false 1000 101 100
          "VP8").ulpfecPayloadType = 100
        ∧ (ConfigureProtection false false 1000 101 100
            "VP8").redPayloadType = 101) :=
  ⟨(configureProtection_rules false true 1000 101 100 "H264").1 rfl,
    (configureProtection_rules false false 1000 101 100 "H264").2.1
      (by decide) (by decide) (by decide),
    (configureProtection_rules false false 1000 (-1) 100 "VP8").2.2.1
      (by decide) (by decide),
    (configureProtection_rules false false 1000 101 100 "VP8").2.2.2 rfl rfl
      (by decide) (by decide) (by decide) (by decide)⟩

/-- C9: the concrete scenario with ssrcs `[1001]`, FlexFEC disabled via a
negative payload type, ULPFEC payload type 100, RED payload type 101, NACK
history 1000 ms and codec name VP8: the resulting policy keeps RED and
ULPFEC enabled with NACK, applies `(101, 100)` to the single module, and
reports `(fec_enabled = true, nack_enabled = true)` to the FEC
controller. -/
theorem configureProtection_vp8_scenario :
    flexfecSenderCreated ⟨-1, 0, []⟩ = false
    ∧ ConfigureProtection false (flexfecSenderCreated ⟨-1, 0, []⟩) 1000 101
        100 "VP8"
      = ⟨false, 101, 100, true, true, true⟩
    ∧ moduleUlpfecConfigs 1
        (ConfigureProtection false (flexfecSenderCreated ⟨-1, 0, []⟩) 1000
          101 100 "VP8")
      = [(101, 100)] := by decide

/-- Signal sent from the encoder-activity watchdog to the orchestrator. -/
inductive EncoderSignal where
  | timedOutSignal
  | activeSignal
deriving DecidableEq, Repr

/-- State of `CheckEncoderActivityTask`: the atomic activity flag and the
`timed_out_` flag. -/
structure WatchdogState where
  activity : Bool
  timedOut : Bool
deriving DecidableEq, Repr

/-- `CheckEncoderActivityTask::UpdateEncoderActivity`
(`video_send_stream.cc:439`): an encoded-frame ping sets the activity
flag. -/
def UpdateEncoderActivity (s : WatchdogState) : WatchdogState :=
  { s with activity := true }

/-- `CheckEncoderActivityTask::Run` (`video_send_stream.cc:448`): one
watchdog tick. When the weak reference to the stream is gone the task is a
no-op; otherwise absence of activity raises a single timed-out signal on
the transition into the timed-out state, renewed activity while timed out
raises a single active signal, and the activity flag is cleared at the end
of the tick. -/
def runEncoderActivityCheck (streamPresent : Bool) (s : WatchdogState) :
    WatchdogState × List EncoderSignal :=
  if streamPresent = false then (s, [])
  else if s.activity = false then
    if s.timedOut = false then
      ({ activity := false, timedOut := true }, [.timedOutSignal])
    else
      ({ activity := false, timedOut := true }, [])
  else
    if s.timedOut = true then
      ({ activity := false, timedOut := false }, [.activeSignal])
    else
      ({ activity := false, timedOut := s.timedOut }, [])

/-- C5: on a live stream, a tick with no activity and not already timed
out emits exactly one timed-out signal and enters the timed-out state; a
later inactive tick emits nothing further; a ping strictly between two
ticks while timed out makes the next tick emit exactly one active signal;
and the activity flag is false after every tick. -/
theorem encoderActivityWatchdog_ticks (s : WatchdogState) :
    (s.activity = false → s.timedOut = false →
      runEncoderActivityCheck true s
        = (⟨false, true⟩, [EncoderSignal.timedOutSignal]))
    ∧ (s.activity = false → s.timedOut = true →
      runEncoderActivityCheck true s = (⟨false, true⟩, []))
    ∧ (s.timedOut = true →
      runEncoderActivityCheck true (UpdateEncoderActivity s)
        = (⟨false, false⟩, [EncoderSignal.activeSignal]))
    ∧ (runEncoderActivityCheck true s).1.activity = false := by
  obtain ⟨a, t⟩ := s
  cases a <;> cases t <;>
    simp [runEncoderActivityCheck, UpdateEncoderActivity]

/-- Witness for C5: the three transitions observed from concrete
watchdog states. -/
theorem encoderActivityWatchdog_ticks_witness :
    runEncoderActivityCheck true ⟨false, false⟩
      = (⟨false, true⟩, [EncoderSignal.timedOutSignal])
    ∧ runEncoderActivityCheck true ⟨false, true⟩ = (⟨false, true⟩, [])
    ∧ runEncoderActivityCheck true (UpdateEncoderActivity ⟨false, true⟩)
      = (⟨false, false⟩, [EncoderSignal.activeSignal]) :=
  ⟨(encoderActivityWatchdog_ticks ⟨false, false⟩).1 rfl rfl,
    (encoderActivityWatchdog_ticks ⟨false, true⟩).2.1 rfl rfl,
    (encoderActivityWatchdog_ticks ⟨false, true⟩).2.2.1 rfl⟩

/-- Lifecycle state of `VideoSendStreamImpl` touched by `Start`, `Stop`,
`StartupVideoSendStream`, `StopVideoSendStream` and
`SignalEncoderTimedOut`: the payload router's active flag, the bandwidth
allocator registration (with call counters for the observable side
effects), the watchdog task, keyframe requests, the last encoder target
rate, and the rate most recently pushed to the encoder. -/
structure StreamState where
  payloadRouterActive : Bool
  allocatorRegistered : Bool
  allocatorAddCount : ℕ
  allocatorRemoveCount : ℕ
  watchdogRunning : Bool
  keyframeRequestCount : ℕ
  encoderTargetRateBps : ℕ
  lastRatePushedToEncoder : Option ℕ
deriving DecidableEq, Repr

/-- `VideoSendStreamImpl::StartupVideoSendStream`
(`video_send_stream.cc:874`): register with the bandwidth allocator, start
the watchdog task, and request a keyframe. -/
def StartupVideoSendStream (s : StreamState) : StreamState :=
  { s with
      allocatorRegistered := true
      allocatorAddCount := s.allocatorAddCount + 1
      watchdogRunning := true
      keyframeRequestCount := s.keyframeRequestCount + 1 }

/-- `VideoSendStreamImpl::Start` (`video_send_stream.cc:864`): a no-op if
the payload router is already active, otherwise activate it and run the
startup sequence. -/
def Start (s : StreamState) : StreamState :=
  if s.payloadRouterActive then s
  else StartupVideoSendStream { s with payloadRouterActive := true }

/-- `VideoSendStreamImpl::StopVideoSendStream`
(`video_send_stream.cc:903`): deregister from the allocator, stop the
watchdog, and push a zero bitrate to the encoder. -/
def StopVideoSendStream (s : StreamState) : StreamState :=
  { s with
      allocatorRegistered := false
      allocatorRemoveCount := s.allocatorRemoveCount + 1
      watchdogRunning := false
      lastRatePushedToEncoder := some 0 }

/-- `VideoSendStreamImpl::Stop` (`video_send_stream.cc:893`): a no-op if
the payload router is not active, otherwise deactivate it and run the
shutdown sequence. -/
def Stop (s : StreamState) : StreamState :=
  if s.payloadRouterActive then
    StopVideoSendStream { s with payloadRouterActive := false }
  else s

/-- `VideoSendStreamImpl::SignalEncoderTimedOut`
(`video_send_stream.cc:914`): deregister from the bandwidth allocator only
when the last computed encoder target rate is strictly positive. -/
def SignalEncoderTimedOut (s : StreamState) : StreamState :=
  if 0 < s.encoderTargetRateBps then
    { s with
        allocatorRegistered := false
        allocatorRemoveCount := s.allocatorRemoveCount + 1 }
  else s

/-- C7: `Start` on an already-started stream is a complete no-op (no
additional allocator registration, watchdog start or keyframe request),
`Stop` on a stream that is not started is a complete no-op, and `Start`
is idempotent. -/
theorem start_stop_idempotent (s : StreamState) :
    (s.payloadRouterActive = true → Start s = s)
    ∧ (s.payloadRouterActive = false → Stop s = s)
    ∧ Start (Start s) = Start s := by
  refine ⟨?_, ?_, ?_⟩
  · intro h
    unfold Start
    rw [if_pos h]
  · intro h
    unfold Stop
    rw [if_neg (by rw [h]; exact Bool.false_ne_true)]
  · by_cases h : s.payloadRouterActive = true
    · have h1 : Start s = s := by
        unfold Start
        rw [if_pos h]
      rw [h1]
      exact h1
    · have h1 : Start s
          = StartupVideoSendStream { s with payloadRouterActive := true } := by
        unfold Start
        rw [if_neg h]
      rw [h1]
      unfold Start
      rw [if_pos]
      rfl

/-- Witness for C7: both no-ops observed on concrete states. -/
theorem start_stop_idempotent_witness :
    Start ⟨true, true, 1, 0, true, 1, 0, none⟩
      = ⟨true, true, 1, 0, true, 1, 0, none⟩
    ∧ Stop ⟨false, false, 0, 0, false, 0, 0, none⟩
      = ⟨false, false, 0, 0, false, 0, 0, none⟩ :=
  ⟨(start_stop_idempotent ⟨true, true, 1, 0, true, 1, 0, none⟩).1 rfl,
    (start_stop_idempotent ⟨false, false, 0, 0, false, 0, 0, none⟩).2.1 rfl⟩

/-- C10: the timed-out signal deregisters from the bandwidth allocator
exactly when the most recently computed encoder target rate is strictly
positive; with a zero target rate the whole call leaves the state, in
particular the allocator registration, unchanged. -/
theorem signalEncoderTimedOut_rate_guard (s : StreamState) :
    (s.encoderTargetRateBps = 0 → SignalEncoderTimedOut s = s)
    ∧ (0 < s.encoderTargetRateBps →
        SignalEncoderTimedOut s
          = { s with
                allocatorRegistered := false
                allocatorRemoveCount := s.allocatorRemoveCount + 1 }) := by
  constructor
  · intro h
    unfold SignalEncoderTimedOut
    rw [if_neg (by omega)]
  · intro h
    unfold SignalEncoderTimedOut
    rw [if_pos h]

/-- Witness for C10: both branches observed on concrete states. -/
theorem signalEncoderTimedOut_rate_guard_witness :
    SignalEncoderTimedOut ⟨true, true, 1, 0, true, 1, 0, none⟩
      = ⟨true, true, 1, 0, true, 1, 0, none⟩
    ∧ SignalEncoderTimedOut ⟨true, true, 1, 0, true, 1, 300000, none⟩
      = ⟨true, false, 1, 1, true, 1, 300000, none⟩ :=
  ⟨(signalEncoderTimedOut_rate_guard
      ⟨true, true, 1, 0, true, 1, 0, none⟩).1 rfl,
    (signalEncoderTimedOut_rate_guard
      ⟨true, true, 1, 0, true, 1, 300000, none⟩).2 (by decide)⟩

/-- Transport-level state touched by
`VideoSendStreamImpl::SetTransportOverhead`: the stored overhead and each
RTP module's maximum RTP packet size. -/
structure TransportState where
  transportOverheadBytesPerPacket : ℕ
  moduleMaxRtpPacketSizes : List ℕ
deriving DecidableEq, Repr

/-- `VideoSendStreamImpl::SetTransportOverhead`
(`video_send_stream.cc:1315`): an overhead of at least `kPathMTU` is
rejected with a log line and all prior state retained; otherwise the
overhead is stored and every module's maximum RTP packet size becomes
`min(config max packet size, kPathMTU - overhead)`. -/
def SetTransportOverhead (configMaxPacketSize : ℕ) (s : TransportState)
    (overhead : ℕ) : TransportState :=
  if kPathMTU ≤ overhead then s
  else
    { transportOverheadBytesPerPacket := overhead
      moduleMaxRtpPacketSizes :=
        s.moduleMaxRtpPacketSizes.map
          fun _ => min configMaxPacketSize (kPathMTU - overhead) }

/-- C8: `SetTransportOverhead` with an overhead at or above the 1500-byte
path MTU is rejected and leaves the stored overhead and every module's
maximum packet size unchanged; below the MTU it stores the overhead and
sets every module's maximum RTP packet size to
`min(configured max packet size, 1500 - overhead)`. -/
theorem setTransportOverhead_bounds (configMaxPacketSize : ℕ)
    (s : TransportState) (overhead : ℕ) :
    (kPathMTU ≤ overhead →
      SetTransportOverhead configMaxPacketSize s overhead = s)
    ∧ (overhead < kPathMTU →
        (SetTransportOverhead configMaxPacketSize s
          overhead).transportOverheadBytesPerPacket = overhead
        ∧ (SetTransportOverhead configMaxPacketSize s
            overhead).moduleMaxRtpPacketSizes
          = s.moduleMaxRtpPacketSizes.map
              fun _ => min configMaxPacketSize (kPathMTU - overhead)) := by
  constructor
  · intro h
    unfold SetTransportOverhead
    rw [if_pos h]
  · intro h
    unfold SetTransportOverhead
    rw [if_neg (by omega)]
    exact ⟨rfl, rfl⟩

/-- Witness for C8: both branches observed at concrete overhead values. -/
theorem setTransportOverhead_bounds_witness :
    SetTransportOverhead 1200 ⟨40, [1200, 1200]⟩ 1500 = ⟨40, [1200, 1200]⟩
    ∧ (SetTransportOverhead 1200 ⟨40, [1200, 1200]⟩
        400).transportOverheadBytesPerPacket = 400
    ∧ (SetTransportOverhead 1200 ⟨40, [1200, 1200]⟩
        400).moduleMaxRtpPacketSizes
      = [1200, 1200].map fun _ => min 1200 (kPathMTU - 400) :=
  ⟨(setTransportOverhead_bounds 1200 ⟨40, [1200, 1200]⟩ 1500).1
      (by decide),
    (setTransportOverhead_bounds 1200 ⟨40, [1200, 1200]⟩ 400).2
      (by decide)⟩

end WebRTC
